import Mathlib

/-!
# Verification of the eatc-airspace parser and domain model

A shallow embedding of the TypeScript sources of `eatc-airspace`
(`Parser.ts`, `Registry.ts`, `Runway.ts`, `navigation/Fix.ts`,
`CompositeMap`, `airspace/Airspace.ts`, `EntryPoint.ts`,
`RunwayConfiguration.ts`) together with theorems settling the frozen
claims about the natural-language specification.

JavaScript numbers are modelled as rationals (`ℚ`); all inputs exercised
here are exactly representable, and no claim below depends on rounding.
A JS `number` value that may be `NaN` is modelled by `JsNum`; a variable
of TS type `number | undefined` by `Option JsNum`.  Exceptions are
modelled with `Except`.
-/

set_option autoImplicit false

namespace Eatc

/-- Decidable equality of `Except` results, used to evaluate the
embedded parsers on concrete inputs. -/
instance {ε α : Type} [DecidableEq ε] [DecidableEq α] : DecidableEq (Except ε α) := fun x y =>
  match x, y with
  | .ok a, .ok b =>
    if h : a = b then .isTrue (by rw [h]) else .isFalse (by simp [h])
  | .error a, .error b =>
    if h : a = b then .isTrue (by rw [h]) else .isFalse (by simp [h])
  | .ok _, .error _ => .isFalse (by simp)
  | .error _, .ok _ => .isFalse (by simp)

/-- A JavaScript number: either `NaN` or an actual (rational) value. -/
inductive JsNum where
  | nan
  | val (q : ℚ)
deriving DecidableEq, Repr

/-- `Number.isNaN(x)` for `x : number | undefined`: `true` only when `x`
is an actual `NaN` number; `undefined` is not a number, so `false`. -/
def numberIsNaN : Option JsNum → Bool
  | some .nan => true
  | _ => false

/-- Digits of a decimal string folded to a natural number
(`parseFloat("001") = 1`). -/
def digitsToNat (ds : List Char) : Nat :=
  ds.foldl (fun n c => n * 10 + (c.toNat - '0'.toNat)) 0

/-- `Number.parseFloat` on an already-trimmed string, for the decimal
forms `[+-]? digits [. digits]` that occur in this code base (the
exponent and `Infinity` notations of the full JS builtin are not
modelled; no call site in the sources feeds them).  Parsing stops at the
first character that cannot extend the literal; if no digits were read
the result is `NaN`.  The value `±(int + frac/10^k)` is assembled with
`mkRat` so that concrete runs normalise. -/
def jsParseFloat (s : String) : JsNum :=
  let cs := s.data
  let (sign, cs) : Int × List Char :=
    match cs with
    | '-' :: rest => (-1, rest)
    | '+' :: rest => (1, rest)
    | _ => (1, cs)
  let intDigits := cs.takeWhile Char.isDigit
  let rest := cs.drop intDigits.length
  let fracDigits :=
    match rest with
    | '.' :: r => r.takeWhile Char.isDigit
    | _ => []
  if intDigits.isEmpty ∧ fracDigits.isEmpty then .nan
  else .val (mkRat (sign * (digitsToNat (intDigits ++ fracDigits) : Int))
    ((10 : Nat) ^ fracDigits.length))

/-- `String#split` with a one-character separator, on character lists:
splits at every occurrence, keeping empty pieces (`"".split(",") = [""]`). -/
def splitChars (sep : Char) : List Char → List (List Char)
  | [] => [[]]
  | c :: cs =>
    match splitChars sep cs with
    | [] => [[]]
    | h :: t => if c = sep then [] :: (h :: t) else (c :: h) :: t

/-- `String#split` with a one-character separator. -/
def jsSplit (s : String) (sep : Char) : List String :=
  (splitChars sep s.data).map fun l => ⟨l⟩

/-- Leading and trailing whitespace removal on character lists. -/
def trimChars (cs : List Char) : List Char :=
  ((cs.dropWhile Char.isWhitespace).reverse.dropWhile Char.isWhitespace).reverse

/-- `String#trim`. -/
def jsTrim (s : String) : String := ⟨trimChars s.data⟩

/-- JS `%` (remainder, sign of the dividend) on rationals:
`a - b * trunc (a / b)`. -/
def jsMod (a b : ℚ) : ℚ :=
  a - b * (if a / b ≥ 0 then (⌊a / b⌋ : ℚ) else (⌈a / b⌉ : ℚ))

/-- A latitude/longitude pair in decimal degrees (`Fix` of
`navigation/Fix.ts`). -/
structure Fix where
  latitude : ℚ
  longitude : ℚ
deriving DecidableEq, Repr

/-- A `NamedFix` (`navigation/NamedFix.ts`): a fix with a display name. -/
structure NamedFix where
  latitude : ℚ
  longitude : ℚ
  name : String
deriving DecidableEq, Repr

/-- Trailing letter of a runway name. -/
inductive RwLetter where
  | L
  | R
  | C
deriving DecidableEq, Repr

/-- A runway-end name in the format the parser validates
(`/^((0?[1-9])|([1-2]\d)|(3[0-6]))[LCR]?$/i`): a number with an
optional trailing letter.  `num` is the value of `Number(name.match(/\d+/)[0])`
and `letter` the value of `name.match(/[LRC]$/)`. -/
structure RwName where
  num : Nat
  letter : Option RwLetter
deriving DecidableEq, Repr

/-- `Runway.LocalizerFix` of `Runway.ts`. -/
structure LocalizerFix where
  name : String
  distance : ℚ
  pronunciation : Option String
deriving DecidableEq, Repr

/-- The `Runway` class of `Runway.ts` (one runway end together with the
mirror data of the opposite end), with the constructor defaults already
applied by the embedded smart constructors below. -/
structure Runway where
  id : String
  name : RwName
  position : Fix
  bearing : ℚ
  length : ℚ
  displaced : ℚ
  oppositeDisplaced : ℚ
  elevation : Option ℚ
  glideslope : ℚ
  oppositeGlideslope : ℚ
  localizer : ℚ
  oppositeLocalizer : ℚ
  localizerFix : Option LocalizerFix
  oppositeLocalizerFix : Option LocalizerFix
  towerFrequency : Option ℚ
  towerPronunciation : Option String
deriving DecidableEq, Repr

namespace Runway

/-- `Runway#isReverse`: whether the id ends with the reserved `"rev"`
suffix. -/
def isReverse (r : Runway) : Bool :=
  "rev".data.isSuffixOf r.id.data

/-- `Runway#realId`: strip the `"rev"` suffix (`id.slice(0, -3)`) when
present. -/
def realId (r : Runway) : String :=
  if r.isReverse then ⟨r.id.data.take (r.id.data.length - 3)⟩ else r.id

/-- Opposite letter used by `Runway#reverse`: L ↔ R, C ↦ C, none ↦ none. -/
def oppositeLetter : Option RwLetter → Option RwLetter
  | some .L => some .R
  | some .R => some .L
  | some .C => some .C
  | none => none

/-- `Runway#reverse` of `Runway.ts`, line for line.  The destination-point
projection (`Fix#destination`, spherical trigonometry) is taken as a
parameter `dest position bearing length`, since none of the claims below
depend on its value.

Note the source computes the opposite runway number as
`(number + 18) % 360` (not `% 36`). -/
def reverse (dest : Fix → ℚ → ℚ → Fix) (r : Runway) : Runway :=
  let id := if r.isReverse then r.realId else r.id ++ "rev"
  let number := r.name.num
  let oppositeLetter := Runway.oppositeLetter r.name.letter
  let name : RwName := ⟨(number + 18) % 360, oppositeLetter⟩
  let bearing := jsMod (r.bearing + 180) 360
  let position := dest r.position bearing r.length
  { id := id
    name := name
    position := position
    bearing := bearing
    length := r.length
    displaced := r.oppositeDisplaced
    elevation := r.elevation
    glideslope := r.oppositeGlideslope
    localizer := r.oppositeLocalizer
    localizerFix := r.oppositeLocalizerFix
    towerFrequency := r.towerFrequency
    towerPronunciation := r.towerPronunciation
    oppositeDisplaced := r.displaced
    oppositeGlideslope := r.glideslope
    oppositeLocalizer := r.localizer
    oppositeLocalizerFix := r.localizerFix }

end Runway

/-! ## DMS parsing (`navigation/Fix.ts`)

`Fix.parseDms` matches the regular expression

`/^\D*(\d{1,3}?(?:\.\d+)?)\D*(\d{1,2}(?:\.\d+)?)\D*(\d{1,2}(?:\.\d+)?)\D*$/`

against the coordinate string.  The embedding below implements exactly
the leftmost-backtracking semantics of that pattern: `\D*` runs standing
before a digit group can only match the maximal run of non-digits, the
first group tries 1, 2, 3 digits in that (lazy) order, the other two try
2, 1 digits in that (greedy) order, each optionally followed by a
greedy, backtrackable `\.\d+` fraction, and the final `\D*$` requires
the leftover to be digit-free.  The first alternative that completes is
the match. -/

/-- One captured group: integer digits and fraction digits (empty when
the optional `(?:\.\d+)?` did not participate). -/
structure DmsCapture where
  intDigits : List Char
  fracDigits : List Char
deriving DecidableEq, Repr

/-- `Number.parseFloat` of a captured group (which is always of the
shape `\d+(\.\d+)?`). -/
def DmsCapture.val (g : DmsCapture) : ℚ :=
  mkRat (digitsToNat (g.intDigits ++ g.fracDigits)) ((10 : Nat) ^ g.fracDigits.length)

/-- A `\D*` run standing before a digit group or at the start: the only
viable choice is the maximal run of non-digits. -/
def skipND (cs : List Char) : List Char :=
  cs.dropWhile (fun c => ¬ c.isDigit)

/-- Alternatives for the `\.\d+`-optional fraction, in backtracking
order: the greedy `\d+` run first at full length, then each shorter
nonempty length, and finally the no-fraction alternative (which leaves
`cs` untouched, so a leading `'.'` stays available to a later `\D*`). -/
def fracAlts (cs : List Char) : List (List Char × List Char) :=
  match cs with
  | '.' :: r =>
    let ds := r.takeWhile Char.isDigit
    (((List.range ds.length).map (fun k => ds.length - k)).map
      (fun n => (ds.take n, r.drop n))) ++ [([], cs)]
  | _ => [([], cs)]

/-- Alternatives for a `\d{1,k}` digit run, with the lengths to try given
in backtracking order (`[1, 2, 3]` for the lazy first group, `[2, 1]`
for the greedy others). -/
def digitAlts (order : List Nat) (cs : List Char) : List (List Char × List Char) :=
  order.filterMap (fun n =>
    let ds := cs.take n
    if ds.length = n ∧ ds.all Char.isDigit then some (ds, cs.drop n) else none)

/-- All full-group alternatives `digits (\.\d+)?` in backtracking order. -/
def groupAlts (order : List Nat) (cs : List Char) : List (DmsCapture × List Char) :=
  (digitAlts order cs).flatMap (fun p =>
    (fracAlts p.2).map (fun q => (⟨p.1, q.1⟩, q.2)))

/-- All complete matches of the DMS pattern, in backtracking order; the
regex engine returns the head. -/
def dmsMatches (cs : List Char) : List (DmsCapture × DmsCapture × DmsCapture) :=
  (groupAlts [1, 2, 3] (skipND cs)).flatMap (fun p1 =>
    (groupAlts [2, 1] (skipND p1.2)).flatMap (fun p2 =>
      (groupAlts [2, 1] (skipND p2.2)).flatMap (fun p3 =>
        if p3.2.all (fun c => ¬ c.isDigit) then [(p1.1, p2.1, p3.1)] else [])))

/-- `Fix.determineDmsSign`: the first (case-sensitive) occurrence of
`N`, `E`, `S` or `W` decides the sign; otherwise a dash or minus makes
it negative. -/
def determineDmsSign (cs : List Char) : Int :=
  match cs.find? (fun c => c = 'N' ∨ c = 'E' ∨ c = 'S' ∨ c = 'W') with
  | some c => if c = 'S' ∨ c = 'W' then -1 else 1
  | none => if cs.any (fun c => c = '-' ∨ c = '−') then -1 else 1

/-- Which DMS component a range failure names. -/
inductive DmsComponent where
  | degrees
  | minutes
  | seconds
deriving DecidableEq, Repr

/-- `Fix.parseDms` failures: the `SyntaxError` ("Unable to determine DMS
in coordinate") and the `RangeError` naming the offending component and
value, kept structurally. -/
inductive DmsError where
  | syntaxErr (dms : String)
  | rangeErr (c : DmsComponent) (value : ℚ) (dms : String)
deriving DecidableEq, Repr

/-- `Fix.parseDms`: determine the sign, run the regex, and range-check
seconds, then minutes, then degrees (in that order, as the source does)
before combining `sign * (d + m/60 + s/3600)`. -/
def parseDms (dms : String) : Except DmsError ℚ :=
  let sign := determineDmsSign dms.data
  match (dmsMatches dms.data).head? with
  | none => .error (.syntaxErr dms)
  | some (g1, g2, g3) =>
    let d := g1.val
    let m := g2.val
    let s := g3.val
    if s < 0 ∨ s ≥ 60 then .error (.rangeErr .seconds s dms)
    else if m < 0 ∨ m ≥ 60 then .error (.rangeErr .minutes m dms)
    else if d < 0 ∨ d ≥ 180 then .error (.rangeErr .degrees d dms)
    else .ok ((sign : ℚ) * (d + m / 60 + s / 3600))

/-- `Fix.fromDms`: parse the latitude, then the longitude. -/
def fromDms (latitude longitude : String) : Except DmsError Fix := do
  let lat ← parseDms latitude
  let lon ← parseDms longitude
  pure ⟨lat, lon⟩

/-! ## Coordinate-pair parsing (`Parser.parseCoordinates`) -/

/-- `\d+(?:\.\d+)?$`: a digit run optionally followed by a fraction,
spanning the whole input. -/
def decimalBody (cs : List Char) : Bool :=
  let ds := cs.takeWhile Char.isDigit
  ¬ds.isEmpty &&
    (match cs.drop ds.length with
     | [] => true
     | '.' :: r => ¬r.isEmpty && r.all Char.isDigit
     | _ => false)

/-- `/^[XY-]?\d+(?:\.\d+)?$/i` for cardinal letters `letters`. -/
def matchesSignedDecimal (letters : List Char) (s : String) : Bool :=
  match s.data with
  | [] => false
  | c :: rest =>
    if c.toUpper ∈ letters ∨ c = '-' then decimalBody rest
    else decimalBody (c :: rest)

/-- `/^\d+(?:\.\d+)?$/i`: the bare (unprefixed) decimal form. -/
def matchesBareDecimal (s : String) : Bool :=
  decimalBody s.data

/-- `s.replace(/^[XY-]/i, "")`: strip one leading cardinal letter or
dash. -/
def stripLead (letters : List Char) (s : String) : String :=
  match s.data with
  | c :: rest => if c.toUpper ∈ letters ∨ c = '-' then ⟨rest⟩ else s
  | [] => s

/-- `s.toUpperCase().startsWith(x)`. -/
def headIs (s : String) (c : Char) : Bool :=
  match s.data with
  | d :: _ => d.toUpper = c
  | [] => false

/-- Failures of `Parser.parseCoordinates`: the parser's own `Error`
messages or a DMS failure propagated from `Fix.fromDms`. -/
inductive CoordError where
  | parse (msg : String)
  | dms (e : DmsError)
deriving DecidableEq, Repr

/-- `Parser.parseCoordinates` (`Parser.ts` lines 638–658).  The
`#decimalDegrees` parse-session flag is passed explicitly.  When both
components match the (optionally prefixed) decimal form, the pair is
parsed as decimal degrees — unless the flag is off and at least one
component is in *bare* (unprefixed) decimal form, which is an error;
otherwise the pair goes to DMS parsing. -/
def parseCoordinates (decimalDegrees : Bool) (latitude longitude : Option String) :
    Except CoordError Fix :=
  match latitude with
  | none => .error (.parse "Fix latitude is required and must be a non-empty string.")
  | some lat =>
    if lat = "" then .error (.parse "Fix latitude is required and must be a non-empty string.")
    else
    match longitude with
    | none => .error (.parse "Fix longitude is required and must be a non-empty string.")
    | some lon =>
      if lon = "" then .error (.parse "Fix longitude is required and must be a non-empty string.")
      else
      if matchesSignedDecimal ['N', 'S'] lat ∧ matchesSignedDecimal ['E', 'W'] lon then
        if ¬decimalDegrees ∧ (matchesBareDecimal lat ∨ matchesBareDecimal lon) then
          .error (.parse "Only latitude and longitude coordinates are supported by this parser. Numeric coordinates encountered and airspace.decimaldegrees is not true.")
        else
          let latSign : ℚ := if headIs lat 'S' ∨ headIs lat '-' then -1 else 1
          let lonSign : ℚ := if headIs lon 'W' ∨ headIs lon '-' then -1 else 1
          match jsParseFloat (stripLead ['N', 'S'] lat), jsParseFloat (stripLead ['E', 'W'] lon) with
          | .nan, _ => .error (.parse "Cannot parse decimal degrees latitude in coordinates")
          | _, .nan => .error (.parse "Cannot parse decimal degrees longitude in coordinates")
          | .val latQ, .val lonQ => .ok ⟨latQ * latSign, lonQ * lonSign⟩
      else
        match fromDms lat lon with
        | .ok f => .ok f
        | .error e => .error (.dms e)

/-! ## Registry (`Registry.ts`)

A JS `Map` is modelled as an association list in insertion order:
`set` overwrites in place when the key exists and appends otherwise. -/

/-- A string-keyed JS `Map`, in insertion order. -/
abbrev JsMap (α : Type) := List (String × α)

namespace JsMap

variable {α : Type}

/-- `Map#get`. -/
def get? (m : JsMap α) (k : String) : Option α :=
  match m with
  | [] => none
  | (k', v) :: rest => if k' = k then some v else get? rest k

/-- `Map#has`. -/
def hasKey (m : JsMap α) (k : String) : Bool :=
  (m.get? k).isSome

/-- `Map#set`: overwrite in place, else append. -/
def setKey (m : JsMap α) (k : String) (v : α) : JsMap α :=
  match m with
  | [] => [(k, v)]
  | (k', v') :: rest => if k' = k then (k', v) :: rest else (k', v') :: setKey rest k v

end JsMap

/-- Errors thrown by `Registry` (`Registry.CollisionError`,
`Registry.NotRegisteredError`), with the dynamic data of the message kept
structurally.  The secondary-airport variants are omitted along with
`addSecondaryAirport`/`getSecondaryAirport`, which no claim touches. -/
inductive RegError where
  | collisionFix (name : String) (existingLat existingLon : ℚ)
  | collisionRunway (id : String)
  | notRegisteredFix (name : String)
  | notRegisteredRunway (id : String)
deriving DecidableEq, Repr

/-- The `Registry` class: the `fixes` and `runways` maps (the `airports`
map is untouched by the claims). -/
structure Registry where
  fixes : JsMap NamedFix
  runways : JsMap Runway
deriving DecidableEq, Repr

namespace Registry

/-- A freshly constructed registry. -/
def empty : Registry := ⟨[], []⟩

/-- `Registry#addFix(...fix)`: for each fix, if one with the same name
exists, throw a collision error when the location differs and otherwise
`continue` without touching the map; if absent, insert it. -/
def addFix (reg : Registry) : List NamedFix → Except RegError Registry
  | [] => .ok reg
  | b :: rest =>
    match reg.fixes.get? b.name with
    | some existing =>
      if existing.latitude ≠ b.latitude ∨ existing.longitude ≠ b.longitude then
        .error (.collisionFix b.name existing.latitude existing.longitude)
      else
        reg.addFix rest
    | none => Registry.addFix { reg with fixes := reg.fixes.setKey b.name b } rest

/-- `Registry#getFix`. -/
def getFix (reg : Registry) (name : String) : Except RegError NamedFix :=
  match reg.fixes.get? name with
  | some f => .ok f
  | none => .error (.notRegisteredFix name)

/-- `Registry#addRunway(...runway)`: the source checks
`this.runways.has(r.id)` and throws on a hit, but contains no
`this.runways.set(...)` call, so a successfully added runway is never
inserted into the map. -/
def addRunway (reg : Registry) : List Runway → Except RegError Registry
  | [] => .ok reg
  | r :: rest =>
    if reg.runways.hasKey r.id then .error (.collisionRunway r.id)
    else reg.addRunway rest

/-- `Registry#getRunway`. -/
def getRunway (reg : Registry) (id : String) : Except RegError Runway :=
  match reg.runways.get? id with
  | some r => .ok r
  | none => .error (.notRegisteredRunway id)

end Registry

/-! ## INI values and the `[airspace]` section of `Parser.formatIni` -/

/-- A leaf or array value of the pre-parsed INI table (`parseIni.ts`). -/
inductive IniVal where
  | str (s : String)
  | num (q : ℚ)
  | bool (b : Bool)
  | list (l : List IniVal)

/-- `Array.isArray(v) && !v.some(b => typeof b !== "string")`: the value
as a list of strings, when it is one. -/
def IniVal.asStringList? : IniVal → Option (List String)
  | .list l =>
    l.foldr (fun v acc =>
      match v, acc with
      | .str s, some rest => some (s :: rest)
      | _, _ => none) (some [])
  | _ => none

/-- The `[airspace]` section as accessed by `Parser.formatIni`
(lines 186–345 of `Parser.ts`): one optional value per key the validator
reads.  `none` is JS `undefined`.  The `lineN` keys collected at the end
of `formatIni` are not read by the airspace-section validation and are
omitted. -/
structure AirspaceData where
  decimaldegrees : Option IniVal := none
  inches : Option IniVal := none
  name : Option IniVal := none
  automatic : Option IniVal := none
  beacons : Option IniVal := none
  boundary : Option IniVal := none
  radius : Option IniVal := none
  letters : Option IniVal := none
  ceiling : Option IniVal := none
  center : Option IniVal := none
  above : Option IniVal := none
  diversionaltitude : Option IniVal := none
  handoff : Option IniVal := none
  descentaltitude : Option IniVal := none
  elevation : Option IniVal := none
  floor : Option IniVal := none
  magneticvar : Option IniVal := none
  metric : Option IniVal := none
  separation : Option IniVal := none
  speedrestriction : Option IniVal := none
  localizerspeed : Option IniVal := none
  strictspawn : Option IniVal := none
  transitionaltitude : Option IniVal := none
  usa : Option IniVal := none
  wake : Option IniVal := none
  zoom : Option IniVal := none

/-- The fully validated airspace record built by `formatIni`, together
with the parse-session `#decimalDegrees` flag the validation sets as a
side effect. -/
structure FormatAirspace where
  decimalDegrees : Bool
  inches : Bool
  name : String
  automatic : Bool
  beacons : List String
  boundary : Option (List String)
  radius : Option ℚ
  letters : ℚ
  ceiling : ℚ
  center : String
  above : ℚ
  diversionaltitude : ℚ
  handoff : Option (List String)
  descentaltitude : ℚ
  elevation : ℚ
  floor : ℚ
  magneticvar : ℚ
  metric : Bool
  separation : ℚ
  speedrestriction : String
  localizerspeed : String
  strictspawn : Bool
  transitionaltitude : ℚ
  usa : Bool
  wake : Option (List String)
  zoom : ℚ
deriving DecidableEq, Repr

/-- The `typeof v !== "number"` required-key pattern of `formatIni`. -/
def requireNum (v : Option IniVal) (msg : String) : Except String ℚ :=
  match v with
  | some (.num q) => .ok q
  | _ => .error msg

/-- The `typeof v !== "string"` required-key pattern of `formatIni`. -/
def requireStr (v : Option IniVal) (msg : String) : Except String String :=
  match v with
  | some (.str s) => .ok s
  | _ => .error msg

/-- The `typeof v !== "boolean"` required-key pattern of `formatIni`. -/
def requireBool (v : Option IniVal) (msg : String) : Except String Bool :=
  match v with
  | some (.bool b) => .ok b
  | _ => .error msg

/-- An optional key that, when present, must be a list of strings. -/
def optionalStringList (v : Option IniVal) (msg : String) :
    Except String (Option (List String)) :=
  match v with
  | none => .ok none
  | some w =>
    match w.asStringList? with
    | some l => .ok (some l)
    | none => .error msg

/-- Validation of the `[airspace]` section, following `Parser.formatIni`
(`Parser.ts` lines 185–348) check for check, in source order.  `none`
models a document without an `[airspace]` section.  `console.warn`
branches keep their stated defaults.  Note the `wake` check of line 312:
the source throws "airspace.wake must have exactly 6 elements." exactly
when `wake.length === 6`. -/
def formatIniAirspace (data : Option AirspaceData) :
    Except String FormatAirspace := do
  match data with
  | none => .error "The [airspace] section is required."
  | some a =>
    let decimalDegrees ←
      match a.decimaldegrees with
      | none => pure false
      | some (.bool b) => pure b
      | some _ => .error "airspace.decimaldegrees is must be a boolean."
    let inches :=
      match a.inches with
      | some (.bool b) => b
      | _ => false
    let name ← requireStr a.name "airspace.name is required and must be a string."
    let automatic ← requireBool a.automatic
      "airspace.automatic is required and must be a boolean."
    let beacons ←
      match a.beacons.bind IniVal.asStringList? with
      | some l => pure l
      | none => .error "airspace.beacons is required and must be a list of strings."
    if beacons.length = 0 then
      .error "airspace.beacons must have at least one element."
    else
    let boundary ← optionalStringList a.boundary
      "airspace.boundary must be a list of strings."
    if boundary = some [] then
      .error "airspace.boundary must have at least one element."
    else
    let radius ←
      match a.radius with
      | none => pure none
      | some (.num q) => pure (some q)
      | some _ => .error "airspace.radius is required and must be a number."
    if boundary = none ∧ radius = none then
      .error "Either airspace.boundary or airspace.radius is required."
    else
    let letters ← requireNum a.letters
      "airspace.letters is required and must be a number."
    let ceiling ← requireNum a.ceiling
      "airspace.ceiling is required and must be a number."
    let center ← requireStr a.center
      "airspace.center is required and must be a string."
    let above ← requireNum a.above
      "airspace.above is required and must be a number."
    let diversionaltitude ← requireNum a.diversionaltitude
      "airspace.diversionaltitude is required and must be a number."
    let handoff ← optionalStringList a.handoff
      "airspace.handoff must be a list of strings."
    if handoff = some [] then
      .error "airspace.handoff must have at least one element."
    else
    let descentaltitude ← requireNum a.descentaltitude
      "airspace.descentaltitude is required and must be a number."
    let elevation ← requireNum a.elevation
      "airspace.elevation is required and must be a number."
    let floor ← requireNum a.floor
      "airspace.floor is required and must be a number."
    let magneticvar ← requireNum a.magneticvar
      "airspace.magneticvar is required and must be a number."
    let metric ← requireBool a.metric
      "airspace.metric is required and must be a boolean."
    let separation ← requireNum a.separation
      "airspace.separation is required and must be a number."
    let speedrestriction :=
      match a.speedrestriction with
      | some (.str s) => s
      | _ => "0, 300, 10000, 250"
    let localizerspeed ← requireStr a.localizerspeed
      "airspace.localizerspeed is required and must be a string."
    let strictspawn ← requireBool a.strictspawn
      "airspace.strictspawn is required and must be a boolean."
    let transitionaltitude ← requireNum a.transitionaltitude
      "airspace.transitionaltitude is required and must be a number."
    let usa ← requireBool a.usa
      "airspace.usa is required and must be a boolean."
    let wake ← optionalStringList a.wake
      "airspace.wake must be a list of strings."
    if (match wake with | some l => l.length == 6 | none => false : Bool) then
      .error "airspace.wake must have exactly 6 elements."
    else
    let zoom ← requireNum a.zoom
      "airspace.zoom is required and must be a number."
    pure { decimalDegrees, inches, name, automatic, beacons, boundary, radius,
           letters, ceiling, center, above, diversionaltitude, handoff,
           descentaltitude, elevation, floor, magneticvar, metric, separation,
           speedrestriction, localizerspeed, strictspawn, transitionaltitude,
           usa, wake, zoom }

/-! ## Wake separation (`parseWakeSeparation`, `parseWakeRow`,
`WakeSeparation.ts`, `WakeCategory.ts`) -/

/-- The six wake turbulence categories of `WakeCategory.ts`. -/
inductive WakeCategory where
  | superHeavy
  | upperHeavy
  | lowerHeavy
  | upperMedium
  | lowerMedium
  | light
deriving DecidableEq, Repr

/-- Position of a following category within a `WakeSeparation.Row`. -/
def WakeCategory.index : WakeCategory → Nat
  | .superHeavy => 0
  | .upperHeavy => 1
  | .lowerHeavy => 2
  | .upperMedium => 3
  | .lowerMedium => 4
  | .light => 5

/-- `WakeSeparation.Separation`: distance (NM) and interval (seconds). -/
abbrev Separation := ℚ × ℚ

/-- The `WakeSeparation` matrix: one row (a list of six separations,
checked by `parseWakeRow`) per leading category. -/
structure WakeSeparation where
  superHeavy : List Separation
  upperHeavy : List Separation
  lowerHeavy : List Separation
  upperMedium : List Separation
  lowerMedium : List Separation
  light : List Separation
deriving DecidableEq, Repr

/-- Row of a leading category. -/
def WakeSeparation.row (w : WakeSeparation) : WakeCategory → List Separation
  | .superHeavy => w.superHeavy
  | .upperHeavy => w.upperHeavy
  | .lowerHeavy => w.lowerHeavy
  | .upperMedium => w.upperMedium
  | .lowerMedium => w.lowerMedium
  | .light => w.light

/-- Index the matrix by a (leading, following) category pair. -/
def WakeSeparation.lookup (w : WakeSeparation) (lead follow : WakeCategory) :
    Option Separation :=
  (w.row lead).get? follow.index

/-- `Parser.parseWakeRow`: split a row on commas, require exactly six
cells, and decode each cell as `distance/interval`. -/
def parseWakeRow (data : String) : Except String (List Separation) := do
  let cats := (jsSplit data ',').map jsTrim
  if cats.length ≠ 6 then
    .error "Each wake separation matrix row must have 6 categories."
  else
    cats.mapM fun c => do
      let parts := (jsSplit c '/').map (fun d => jsParseFloat (jsTrim d))
      match parts.get? 0, parts.get? 1 with
      | some d, some i =>
        match d, i with
        | .val dq, .val iq => pure ((dq, iq) : Separation)
        | _, _ => .error "Non-numeric value provided in wake separation matrix cell."
      | _, _ =>
        .error "Wake separation matrix cells must be in the format: distance/interval."

/-- `Parser.parseWakeSeparation`: `undefined` rows or a row count other
than six yield `undefined`; otherwise the six rows are decoded into a
matrix. -/
def parseWakeSeparation (data : Option (List String)) :
    Except String (Option WakeSeparation) :=
  match data with
  | none => .ok none
  | some rows =>
    if rows.length ≠ 6 then .ok none
    else do
      let r0 ← parseWakeRow (rows.getD 0 "")
      let r1 ← parseWakeRow (rows.getD 1 "")
      let r2 ← parseWakeRow (rows.getD 2 "")
      let r3 ← parseWakeRow (rows.getD 3 "")
      let r4 ← parseWakeRow (rows.getD 4 "")
      let r5 ← parseWakeRow (rows.getD 5 "")
      pure (some ⟨r0, r1, r2, r3, r4, r5⟩)

/-! ## `Airspace` constructor defaults (`airspace/Airspace.ts`) -/

/-- The altitude-related options of `AirspaceOptions` whose defaults the
`Airspace` constructor computes (lines 92–94): `none` means the option
was omitted. -/
structure AirspaceAltitudeOptions where
  descentAltitude : ℚ
  ceilingAltitude : Option ℚ := none
  departureAltitude : Option ℚ := none
deriving DecidableEq, Repr

/-- `ceilingAltitude = descentAltitude + 1000` destructuring default. -/
def Airspace.ceilingAltitude (o : AirspaceAltitudeOptions) : ℚ :=
  o.ceilingAltitude.getD (o.descentAltitude + 1000)

/-- `departureAltitude = ceilingAltitude + 2000` destructuring default
(referring to the possibly-defaulted `ceilingAltitude`). -/
def Airspace.departureAltitude (o : AirspaceAltitudeOptions) : ℚ :=
  o.departureAltitude.getD (Airspace.ceilingAltitude o + 2000)

/-! ## Departure and approach sections (`Parser.formatIni` lines
530–577, `CompositeMap`)

The `CompositeMap` of the source stores pair keys JSON-encoded
(`JSON.stringify`) in a string-keyed JS `Map`; `JSON.stringify` is
injective on pairs of strings, so the map behaves as a pair-keyed
insertion-ordered map, modelled here directly with pair keys. -/

/-- A pair-keyed insertion-ordered map (the `CompositeMap` used for
approaches). -/
abbrev PairMap (α : Type) := List ((String × String) × α)

namespace PairMap

variable {α : Type}

/-- `CompositeMap#get`. -/
def get? (m : PairMap α) (k : String × String) : Option α :=
  match m with
  | [] => none
  | (k', v) :: rest => if k' = k then some v else get? rest k

/-- `CompositeMap#has`. -/
def hasKey (m : PairMap α) (k : String × String) : Bool :=
  (m.get? k).isSome

/-- `CompositeMap#set`: overwrite in place, else append. -/
def setKey (m : PairMap α) (k : String × String) (v : α) : PairMap α :=
  match m with
  | [] => [(k, v)]
  | (k', v') :: rest => if k' = k then (k', v) :: rest else (k', v') :: setKey rest k v

end PairMap

/-- A `[departureN]` section as read by `formatIni`: the `runway`
property and, of its remaining entries, the ones whose key starts with
`route` (in declaration order); no other property is read. -/
structure DepSection where
  runway : Option IniVal
  routeEntries : List (String × IniVal)

/-- An `[approachN]` section as read by `formatIni`: the `runway` and
`beacon` properties plus the `route`-prefixed entries. -/
structure AppSection where
  runway : Option IniVal
  beacon : Option IniVal
  routeEntries : List (String × IniVal)

/-- One route entry is a list of strings of at least `minLen` elements. -/
def routeOk (minLen : Nat) (v : IniVal) : Bool :=
  match v.asStringList? with
  | some l => minLen ≤ l.length
  | none => false

/-- The per-section route loop shared by departures (`minLen = 2`) and
approaches (`minLen = 3`): each `routeN` entry must be a list of strings
of at least `minLen` elements. -/
def collectRoutes (secKey : String) (minLen : Nat) (minMsg : String) :
    List (String × IniVal) → Except String (List (List String))
  | [] => .ok []
  | (routeKey, v) :: rest =>
    match v.asStringList? with
    | none => .error (secKey ++ "." ++ routeKey ++ " must be a list of strings.")
    | some route =>
      if route.length < minLen then
        .error (secKey ++ "." ++ routeKey ++ " " ++ minMsg)
      else
        match collectRoutes secKey minLen minMsg rest with
        | .error e => .error e
        | .ok rs => .ok (route :: rs)

/-- The departures loop of `formatIni`, with the accumulated
runway-keyed map explicit. -/
def processDeparturesGo (acc : JsMap (List (List String))) :
    List (String × DepSection) → Except String (JsMap (List (List String)))
  | [] => .ok acc
  | (key, sec) :: rest =>
    match sec.runway with
    | some (.str runway) =>
      if acc.hasKey runway then
        .error (key ++ " is duplicate departure with " ++ key ++ ".runway \""
          ++ runway ++ "\".")
      else
        match collectRoutes key 2 "must have at least two elements." sec.routeEntries with
        | .error e => .error e
        | .ok routes =>
          if routes.length = 0 then .error (key ++ " must have at least one route.")
          else processDeparturesGo (acc.setKey runway routes) rest
    | _ => .error (key ++ ".runway is required and must be a string.")

/-- The departures loop, started from the empty map. -/
def processDepartures (sections : List (String × DepSection)) :
    Except String (JsMap (List (List String))) :=
  processDeparturesGo [] sections

/-- The approaches loop of `formatIni`, with the accumulated
composite-keyed map explicit. -/
def processApproachesGo (acc : PairMap (List (List String))) :
    List (String × AppSection) → Except String (PairMap (List (List String)))
  | [] => .ok acc
  | (key, sec) :: rest =>
    match sec.runway with
    | some (.str runway) =>
      match sec.beacon with
      | some (.str beacon) =>
        if acc.hasKey (runway, beacon) then
          .error (key ++ " is duplicate approach with " ++ key ++ ".runway \""
            ++ runway ++ "\" and " ++ key ++ ".beacon \"" ++ beacon ++ "\".")
        else
          match collectRoutes key 3 "must have at least three elements." sec.routeEntries with
          | .error e => .error e
          | .ok routes =>
            if routes.length = 0 then .error (key ++ " must have at least one route.")
            else processApproachesGo (acc.setKey (runway, beacon) routes) rest
      | _ => .error (key ++ ".beacon is required and must be a string.")
    | _ => .error (key ++ ".runway is required and must be a string.")

/-- The approaches loop, started from the empty composite map. -/
def processApproaches (sections : List (String × AppSection)) :
    Except String (PairMap (List (List String))) :=
  processApproachesGo [] sections

/-- The runway id of a well-formed departure section. -/
def DepSection.key (s : DepSection) : String :=
  match s.runway with
  | some (.str r) => r
  | _ => ""

/-- A departure section on which only the duplicate check can fail:
`runway` is a string and every route entry validates, with at least one
route. -/
def DepSection.wf (s : DepSection) : Bool :=
  (match s.runway with | some (.str _) => true | _ => false)
  && !s.routeEntries.isEmpty
  && s.routeEntries.all (fun e => routeOk 2 e.2)

/-- The (runway, beacon) composite key of a well-formed approach
section. -/
def AppSection.key (s : AppSection) : String × String :=
  (match s.runway with | some (.str r) => r | _ => "",
   match s.beacon with | some (.str b) => b | _ => "")

/-- An approach section on which only the duplicate check can fail. -/
def AppSection.wf (s : AppSection) : Bool :=
  (match s.runway with | some (.str _) => true | _ => false)
  && (match s.beacon with | some (.str _) => true | _ => false)
  && !s.routeEntries.isEmpty
  && s.routeEntries.all (fun e => routeOk 3 e.2)

/-! ## Entry points (`Parser.parseEntryPoint`, `EntryPoint.ts`) -/

/-- The `EntryPoint` property holder. -/
structure EntryPoint where
  bearing : ℚ
  altitude : Option JsNum
  beacon : Option String
deriving DecidableEq, Repr

/-- `Parser.parseEntryPoint` (`Parser.ts` lines 895–910).  The record is
destructured as `[bearing, beacon, altitude]`.  As in the source, the
local `altitudeNumber` is declared without an initialiser and — when an
altitude field is present — tested with `Number.isNaN(altitudeNumber)`
*before ever being assigned*, so the test sees `undefined` (not `NaN`)
and never throws, and the returned entry point always carries
`altitudeNumber = undefined`. -/
def parseEntryPoint (data : String) : Except String EntryPoint :=
  let fields := (jsSplit data ',').map jsTrim
  let bearing := fields.get? 0
  let beacon := fields.get? 1
  let altitude := fields.get? 2
  match bearing with
  | none => .error "Entry point bearing is required."
  | some b =>
    match jsParseFloat b with
    | .nan => .error "Entry point bearing must be a number."
    | .val bearingNumber =>
      let altitudeNumber : Option JsNum := none
      if altitude.isSome then
        if numberIsNaN altitudeNumber then
          .error "Entry point altitude must be a number."
        else .ok ⟨bearingNumber, altitudeNumber, beacon⟩
      else .ok ⟨bearingNumber, altitudeNumber, beacon⟩

/-! ## Runway configurations (`Parser.parseConfigurations`,
`RunwayConfiguration.ts`) -/

/-- `needle` is a leading segment of the list. -/
def leadsWith : List Char → List Char → Bool
  | [], _ => true
  | _ :: _, [] => false
  | a :: as, b :: bs => a = b && leadsWith as bs

/-- `needle` occurs as a contiguous segment. -/
def hasSub (needle : List Char) : List Char → Bool
  | [] => needle.isEmpty
  | c :: rest => leadsWith needle (c :: rest) || hasSub needle rest

/-- `String#includes`. -/
def jsIncludes (hay needle : String) : Bool :=
  hasSub needle.data hay.data

/-- `RunwayConfiguration.Options` as assembled by
`parseConfigurations`. -/
structure ConfigOptions where
  land : Bool
  depart : Bool
  intersection : Bool
  backtrack : Bool
  initialHeading : Option ℚ
  noSID : Bool
deriving DecidableEq, Repr

/-- One `rc.add(score, runway, options)` entry of a configuration. -/
structure ConfigEntry where
  score : ℚ
  runway : Runway
  options : ConfigOptions
deriving DecidableEq, Repr

/-- Failures of `parseConfigurations`: its own `Error` messages or a
registry failure propagated from `asp.getRunway`. -/
inductive CfgError where
  | parse (msg : String)
  | reg (e : RegError)
deriving DecidableEq, Repr

/-- One record of a configuration section (`Parser.ts` lines 916–954):
fields `[score, id, usage, offsetheading, nosid]`; the five usage
keywords are detected with `usage.includes(...)`, while the `nosid` flag
is `nosid === "nosid"` on the fifth field; `rev` selects
`asp.getRunway(id).reverse()` instead of `asp.getRunway(id)`.  The
destination-point projection is a parameter as in `Runway.reverse`. -/
def parseConfigRecord (dest : Fix → ℚ → ℚ → Fix) (reg : Registry) (d : String) :
    Except CfgError ConfigEntry :=
  let fields := (jsSplit d ',').map jsTrim
  let score := fields.get? 0
  let id := fields.get? 1
  let usage := fields.get? 2
  let offsetheading := fields.get? 3
  let nosid := fields.get? 4
  match score with
  | none => .error (.parse "Runway configuration score is required.")
  | some score =>
  match jsParseFloat score with
  | .nan => .error (.parse "Runway configuration score must be a number.")
  | .val scoreNumber =>
  match id with
  | none => .error (.parse "Runway configuration runway id is required.")
  | some id =>
  match usage with
  | none => .error (.parse "Runway configuration runway id is required.")
  | some usage =>
    let land := jsIncludes usage "land"
    let start := jsIncludes usage "start"
    let rev := jsIncludes usage "rev"
    let int := jsIncludes usage "int"
    let track := jsIncludes usage "track"
    match reg.getRunway id with
    | .error e => .error (.reg e)
    | .ok r =>
      let runway := if rev then r.reverse dest else r
      match
        (match offsetheading with
         | none => .ok none
         | some oh =>
           match jsParseFloat oh with
           | .nan => .error (CfgError.parse "Runway configuration offset heading must be a number.")
           | .val q => .ok (some q) : Except CfgError (Option ℚ)) with
      | .error e => .error e
      | .ok offsetHeadingNumber =>
        let isNosid := nosid = some "nosid"
        .ok ⟨scoreNumber, runway, ⟨land, start, int, track, offsetHeadingNumber, isNosid⟩⟩

/-- One configuration section: every record added in order. -/
def parseConfiguration (dest : Fix → ℚ → ℚ → Fix) (reg : Registry)
    (config : List String) : Except CfgError (List ConfigEntry) :=
  config.mapM (parseConfigRecord dest reg)

/-! ## Concrete inputs used by the theorems -/

/-- A concrete runway with id `"01"`. -/
def rw01 : Runway :=
  { id := "01", name := ⟨1, none⟩, position := ⟨51, 0⟩, bearing := 10,
    length := 8000, displaced := 0, oppositeDisplaced := 0, elevation := none,
    glideslope := 3, oppositeGlideslope := 3, localizer := 10,
    oppositeLocalizer := 190, localizerFix := none,
    oppositeLocalizerFix := none, towerFrequency := none,
    towerPronunciation := none }

/-- A concrete runway end named `"27"` (id `"27"`, bearing 270°). -/
def r27 : Runway :=
  { id := "27", name := ⟨27, none⟩, position := ⟨51, 0⟩, bearing := 270,
    length := 8000, displaced := 0, oppositeDisplaced := 0, elevation := none,
    glideslope := 3, oppositeGlideslope := 3, localizer := 270,
    oppositeLocalizer := 90, localizerFix := none,
    oppositeLocalizerFix := none, towerFrequency := none,
    towerPronunciation := none }

/-- A registry that already holds the fix `"ABC"` at (10, 20). -/
def regABC : Registry := ⟨[("ABC", ⟨10, 20, "ABC"⟩)], []⟩

/-- Six wake matrix rows of six `distance/interval` cells each (the
RECAT-EU values used as example in `WakeSeparation.ts`). -/
def wakeRows6 : List String :=
  [ "3/0, 4/100, 5/120, 5/140, 6/160, 8/180",
    "0/0, 3/0, 4/0, 4/100, 5/120, 7/140",
    "0/0, 0/0, 3/0, 3/80, 4/100, 6/120",
    "0/0, 0/0, 0/0, 0/0, 0/0, 5/120",
    "0/0, 0/0, 0/0, 0/0, 0/0, 4/100",
    "0/0, 0/0, 0/0, 0/0, 0/0, 3/80" ]

/-- The first five of the six wake rows. -/
def wakeRows5 : List String := wakeRows6.take 5

/-- A fully valid `[airspace]` section (every required key present and
well-typed, boundary given as a radius, no optional keys). -/
def airspaceDataBase : AirspaceData :=
  { name := some (.str "Metro Approach, Metro Departure"),
    automatic := some (.bool false),
    beacons := some (.list [.str "BCN, 513000N, 0000000E"]),
    radius := some (.num 30),
    letters := some (.num 2),
    ceiling := some (.num 13000),
    center := some (.str "513000N, 0000000E"),
    above := some (.num 2000),
    diversionaltitude := some (.num 12000),
    descentaltitude := some (.num 11000),
    elevation := some (.num 100),
    floor := some (.num 2000),
    magneticvar := some (.num 0),
    metric := some (.bool false),
    separation := some (.num 3),
    localizerspeed := some (.str "4, 160"),
    strictspawn := some (.bool true),
    transitionaltitude := some (.num 6000),
    usa := some (.bool false),
    zoom := some (.num 7) }

/-- The valid section with a `wake` key of six rows. -/
def airspaceDataWake6 : AirspaceData :=
  { airspaceDataBase with wake := some (.list (wakeRows6.map .str)) }

/-- The valid section with a `wake` key of five rows. -/
def airspaceDataWake5 : AirspaceData :=
  { airspaceDataBase with wake := some (.list (wakeRows5.map .str)) }

/-- The valid section with the `ceiling` key removed. -/
def airspaceDataNoCeiling : AirspaceData :=
  { airspaceDataBase with ceiling := none }

/-- A fixed destination-point function used to close statements whose
truth does not depend on the geometry. -/
def destId : Fix → ℚ → ℚ → Fix := fun p _ _ => p

/-- A registry whose runway map holds `r27` under its id `"27"` (the
state `addRunway` is documented to produce). -/
def reg27 : Registry := ⟨[], [("27", r27)]⟩

/-- A departure route entry of two elements. -/
def routesTwo : List (String × IniVal) :=
  [("route1", .list [.str "SID1, SID ONE", .str "N51, W0, 5000"])]

/-- An approach route entry of three elements. -/
def routesThree : List (String × IniVal) :=
  [("route1", .list [.str "0, STAR1", .str "N51, W0", .str "12, 4000"])]

/-- Two departure sections sharing the runway id `"26"`. -/
def depsDup : List (String × DepSection) :=
  [("departure1", ⟨some (.str "26"), routesTwo⟩),
   ("departure2", ⟨some (.str "26"), routesTwo⟩)]

/-- Three approach sections: the first two share only the runway, the
first and third share only the beacon. -/
def appsShared : List (String × AppSection) :=
  [("approach1", ⟨some (.str "26"), some (.str "ALPHA"), routesThree⟩),
   ("approach2", ⟨some (.str "26"), some (.str "BRAVO"), routesThree⟩),
   ("approach3", ⟨some (.str "08"), some (.str "ALPHA"), routesThree⟩)]

/-- The matrix `parseWakeSeparation` decodes from `wakeRows6`. -/
def recatMatrix : WakeSeparation :=
  { superHeavy := [(3, 0), (4, 100), (5, 120), (5, 140), (6, 160), (8, 180)],
    upperHeavy := [(0, 0), (3, 0), (4, 0), (4, 100), (5, 120), (7, 140)],
    lowerHeavy := [(0, 0), (0, 0), (3, 0), (3, 80), (4, 100), (6, 120)],
    upperMedium := [(0, 0), (0, 0), (0, 0), (0, 0), (0, 0), (5, 120)],
    lowerMedium := [(0, 0), (0, 0), (0, 0), (0, 0), (0, 0), (4, 100)],
    light := [(0, 0), (0, 0), (0, 0), (0, 0), (0, 0), (3, 80)] }

end Eatc

namespace Eatc

/-! ## Theorems -/

/-! ### Map lemmas for the duplicate-key analysis -/

theorem JsMap.get?_setKey {α : Type} (m : JsMap α) (k k' : String) (v : α) :
    (m.setKey k v).get? k' = if k = k' then some v else m.get? k' := by
  induction m with
  | nil => simp [JsMap.setKey, JsMap.get?]
  | cons hd tl ih =>
    obtain ⟨k0, v0⟩ := hd
    by_cases h0 : k0 = k
    · subst h0
      simp only [JsMap.setKey, if_pos rfl, JsMap.get?]
      by_cases h1 : k0 = k'
      · rw [if_pos h1, if_pos h1]
      · rw [if_neg h1, if_neg h1, if_neg h1]
    · simp only [JsMap.setKey, if_neg h0, JsMap.get?, ih]
      by_cases h1 : k0 = k'
      · subst h1
        rw [if_pos rfl, if_neg (fun h => h0 h.symm), if_pos rfl]
      · by_cases h2 : k = k'
        · rw [if_neg h1, if_pos h2, if_pos h2]
        · rw [if_neg h1, if_neg h2, if_neg h2, if_neg h1]

theorem JsMap.hasKey_setKey {α : Type} (m : JsMap α) (k k' : String) (v : α) :
    (m.setKey k v).hasKey k' = true ↔ (k = k' ∨ m.hasKey k' = true) := by
  unfold JsMap.hasKey
  rw [JsMap.get?_setKey]
  by_cases h : k = k'
  · simp [h]
  · simp [h]

theorem JsMap.hasKey_cons {α : Type} (k0 : String) (v0 : α) (tl : JsMap α) (k : String) :
    JsMap.hasKey ((k0, v0) :: tl) k = if k0 = k then true else tl.hasKey k := by
  by_cases h : k0 = k
  · simp [JsMap.hasKey, JsMap.get?, h]
  · simp [JsMap.hasKey, JsMap.get?, h]

theorem JsMap.fst_setKey {α : Type} (m : JsMap α) (k : String) (v : α)
    (h : m.hasKey k = false) :
    (m.setKey k v).map Prod.fst = m.map Prod.fst ++ [k] := by
  induction m with
  | nil => simp [JsMap.setKey]
  | cons hd tl ih =>
    obtain ⟨k0, v0⟩ := hd
    rw [JsMap.hasKey_cons] at h
    by_cases h0 : k0 = k
    · rw [if_pos h0] at h
      exact absurd h (by simp)
    · rw [if_neg h0] at h
      simp only [JsMap.setKey, if_neg h0, List.map_cons, ih h, List.cons_append]

theorem PairMap.get?_setKeyP {α : Type} (m : PairMap α) (k k' : String × String) (v : α) :
    (m.setKey k v).get? k' = if k = k' then some v else m.get? k' := by
  induction m with
  | nil => simp [PairMap.setKey, PairMap.get?]
  | cons hd tl ih =>
    obtain ⟨k0, v0⟩ := hd
    by_cases h0 : k0 = k
    · subst h0
      simp only [PairMap.setKey, if_pos rfl, PairMap.get?]
      by_cases h1 : k0 = k'
      · rw [if_pos h1, if_pos h1]
      · rw [if_neg h1, if_neg h1, if_neg h1]
    · simp only [PairMap.setKey, if_neg h0, PairMap.get?, ih]
      by_cases h1 : k0 = k'
      · subst h1
        rw [if_pos rfl, if_neg (fun h => h0 h.symm), if_pos rfl]
      · by_cases h2 : k = k'
        · rw [if_neg h1, if_pos h2, if_pos h2]
        · rw [if_neg h1, if_neg h2, if_neg h2, if_neg h1]

theorem PairMap.hasKey_setKeyP {α : Type} (m : PairMap α) (k k' : String × String) (v : α) :
    (m.setKey k v).hasKey k' = true ↔ (k = k' ∨ m.hasKey k' = true) := by
  unfold PairMap.hasKey
  rw [PairMap.get?_setKeyP]
  by_cases h : k = k'
  · simp [h]
  · simp [h]

theorem PairMap.hasKey_consP {α : Type} (k0 : String × String) (v0 : α) (tl : PairMap α)
    (k : String × String) :
    PairMap.hasKey ((k0, v0) :: tl) k = if k0 = k then true else tl.hasKey k := by
  by_cases h : k0 = k
  · simp [PairMap.hasKey, PairMap.get?, h]
  · simp [PairMap.hasKey, PairMap.get?, h]

theorem PairMap.fst_setKeyP {α : Type} (m : PairMap α) (k : String × String) (v : α)
    (h : m.hasKey k = false) :
    (m.setKey k v).map Prod.fst = m.map Prod.fst ++ [k] := by
  induction m with
  | nil => simp [PairMap.setKey]
  | cons hd tl ih =>
    obtain ⟨k0, v0⟩ := hd
    rw [PairMap.hasKey_consP] at h
    by_cases h0 : k0 = k
    · rw [if_pos h0] at h
      exact absurd h (by simp)
    · rw [if_neg h0] at h
      simp only [PairMap.setKey, if_neg h0, List.map_cons, ih h, List.cons_append]

/-! ### Duplicate-key analysis of the departures and approaches loops -/

theorem collectRoutes_ok (secKey : String) (minLen : Nat) (minMsg : String)
    (entries : List (String × IniVal))
    (h : ∀ e ∈ entries, routeOk minLen e.2 = true) :
    ∃ rs : List (List String),
      collectRoutes secKey minLen minMsg entries = .ok rs
      ∧ rs.length = entries.length := by
  induction entries with
  | nil => exact ⟨[], rfl, rfl⟩
  | cons hd tl ih =>
    obtain ⟨rk, v⟩ := hd
    have hv := h (rk, v) (List.mem_cons_self _ _)
    obtain ⟨rs, hrs, hlen⟩ := ih (fun e he => h e (List.mem_cons_of_mem _ he))
    unfold routeOk at hv
    rcases hl : v.asStringList? with _ | l
    · rw [hl] at hv
      exact absurd hv (by simp)
    · rw [hl] at hv
      refine ⟨l :: rs, ?_, by simp [hlen]⟩
      simp only [collectRoutes, hl, hrs]
      rw [if_neg (Nat.not_lt.mpr (of_decide_eq_true hv))]

theorem processDepGo_ok_iff (sections : List (String × DepSection)) :
    ∀ acc : JsMap (List (List String)),
      (∀ p ∈ sections, DepSection.wf p.2 = true) →
      (((processDeparturesGo acc sections).isOk = true) ↔
        ((sections.map fun p => DepSection.key p.2).Nodup
          ∧ ∀ k ∈ sections.map fun p => DepSection.key p.2, acc.hasKey k = false)) := by
  induction sections with
  | nil =>
    intro acc _
    simp [processDeparturesGo, Except.isOk, Except.toBool]
  | cons hd tl ih =>
    intro acc hwf
    obtain ⟨key, sec⟩ := hd
    have hsec := hwf (key, sec) (List.mem_cons_self _ _)
    simp only [DepSection.wf, Bool.and_eq_true, List.all_eq_true] at hsec
    obtain ⟨⟨hrw, hne⟩, hall⟩ := hsec
    rcases hr : sec.runway with _ | v
    · rw [hr] at hrw
      exact absurd hrw (by simp)
    · rw [hr] at hrw
      cases v with
      | num q => exact absurd hrw (by simp)
      | bool b => exact absurd hrw (by simp)
      | list l => exact absurd hrw (by simp)
      | str r =>
        have hkey : DepSection.key sec = r := by simp [DepSection.key, hr]
        obtain ⟨rs, hrs, hlen⟩ := collectRoutes_ok key 2 "must have at least two elements."
          sec.routeEntries (fun e he => hall e he)
        have hrs0 : ¬ rs.length = 0 := by
          rw [hlen, List.length_eq_zero]
          intro h0
          rw [h0] at hne
          exact absurd hne (by simp)
        simp only [processDeparturesGo, hr, hrs]
        by_cases hdup : acc.hasKey r = true
        · rw [if_pos hdup]
          constructor
          · intro h
            exact absurd h (by simp [Except.isOk, Except.toBool])
          · rintro ⟨_, hforall⟩
            have h0 := hforall r (by simp [hkey])
            rw [hdup] at h0
            exact absurd h0 (by simp)
        · rw [if_neg hdup, if_neg hrs0,
            ih (acc.setKey r rs) (fun p hp => hwf p (List.mem_cons_of_mem _ hp))]
          simp only [List.map_cons, hkey, List.nodup_cons, List.mem_cons]
          constructor
          · rintro ⟨hnd, hfa⟩
            refine ⟨⟨?_, hnd⟩, ?_⟩
            · intro hmem
              have h0 := hfa r hmem
              have h1 : (JsMap.hasKey (acc.setKey r rs) r) = true :=
                (JsMap.hasKey_setKey acc r r rs).mpr (Or.inl rfl)
              rw [h0] at h1
              exact absurd h1 (by simp)
            · intro k hk
              rcases hk with hk | hk
              · rw [hk]
                exact Bool.not_eq_true _ ▸ hdup
              · have h0 := hfa k hk
                rw [← Bool.not_eq_true] at h0 ⊢
                intro h1
                exact h0 ((JsMap.hasKey_setKey acc r k rs).mpr (Or.inr h1))
          · rintro ⟨⟨hnmem, hnd⟩, hfa⟩
            refine ⟨hnd, ?_⟩
            intro k hk
            rw [← Bool.not_eq_true]
            intro h1
            rcases (JsMap.hasKey_setKey acc r k rs).mp h1 with h2 | h2
            · exact hnmem (h2 ▸ hk)
            · have h0 := hfa k (Or.inr hk)
              rw [h0] at h2
              exact absurd h2 (by simp)

theorem processDepGo_keys (sections : List (String × DepSection)) :
    ∀ (acc m : JsMap (List (List String))),
      processDeparturesGo acc sections = .ok m →
      m.map Prod.fst
        = acc.map Prod.fst ++ sections.map (fun p => DepSection.key p.2) := by
  induction sections with
  | nil =>
    intro acc m h
    simp only [processDeparturesGo] at h
    cases h
    simp
  | cons hd tl ih =>
    intro acc m h
    obtain ⟨key, sec⟩ := hd
    rcases hr : sec.runway with _ | v
    · rw [show processDeparturesGo acc ((key, sec) :: tl)
          = .error (key ++ ".runway is required and must be a string.") by
            simp only [processDeparturesGo, hr]] at h
      cases h
    · cases v with
      | str r =>
        simp only [processDeparturesGo, hr] at h
        by_cases hdup : acc.hasKey r = true
        · rw [if_pos hdup] at h
          cases h
        · rw [if_neg hdup] at h
          rcases hcr : collectRoutes key 2 "must have at least two elements."
              sec.routeEntries with e | rs
          · simp only [hcr] at h
            exact Except.noConfusion h
          · simp only [hcr] at h
            by_cases hz : rs.length = 0
            · rw [if_pos hz] at h
              cases h
            · rw [if_neg hz] at h
              have hkeys := ih (acc.setKey r rs) m h
              rw [hkeys, JsMap.fst_setKey acc r rs (Bool.not_eq_true _ ▸ hdup)]
              simp [DepSection.key, hr]
      | num q =>
        rw [show processDeparturesGo acc ((key, sec) :: tl)
            = .error (key ++ ".runway is required and must be a string.") by
              simp only [processDeparturesGo, hr]] at h
        cases h
      | bool b =>
        rw [show processDeparturesGo acc ((key, sec) :: tl)
            = .error (key ++ ".runway is required and must be a string.") by
              simp only [processDeparturesGo, hr]] at h
        cases h
      | list l =>
        rw [show processDeparturesGo acc ((key, sec) :: tl)
            = .error (key ++ ".runway is required and must be a string.") by
              simp only [processDeparturesGo, hr]] at h
        cases h

theorem processAppGo_ok_iff (sections : List (String × AppSection)) :
    ∀ acc : PairMap (List (List String)),
      (∀ p ∈ sections, AppSection.wf p.2 = true) →
      (((processApproachesGo acc sections).isOk = true) ↔
        ((sections.map fun p => AppSection.key p.2).Nodup
          ∧ ∀ k ∈ sections.map fun p => AppSection.key p.2, acc.hasKey k = false)) := by
  induction sections with
  | nil =>
    intro acc _
    simp [processApproachesGo, Except.isOk, Except.toBool]
  | cons hd tl ih =>
    intro acc hwf
    obtain ⟨key, sec⟩ := hd
    have hsec := hwf (key, sec) (List.mem_cons_self _ _)
    simp only [AppSection.wf, Bool.and_eq_true, List.all_eq_true] at hsec
    obtain ⟨⟨⟨hrw, hbw⟩, hne⟩, hall⟩ := hsec
    rcases hr : sec.runway with _ | v
    · rw [hr] at hrw
      exact absurd hrw (by simp)
    · rw [hr] at hrw
      cases v with
      | num q => exact absurd hrw (by simp)
      | bool b => exact absurd hrw (by simp)
      | list l => exact absurd hrw (by simp)
      | str r =>
        rcases hb : sec.beacon with _ | w
        · rw [hb] at hbw
          exact absurd hbw (by simp)
        · rw [hb] at hbw
          cases w with
          | num q => exact absurd hbw (by simp)
          | bool b => exact absurd hbw (by simp)
          | list l => exact absurd hbw (by simp)
          | str b =>
            have hkey : AppSection.key sec = (r, b) := by simp [AppSection.key, hr, hb]
            obtain ⟨rs, hrs, hlen⟩ := collectRoutes_ok key 3 "must have at least three elements."
              sec.routeEntries (fun e he => hall e he)
            have hrs0 : ¬ rs.length = 0 := by
              rw [hlen, List.length_eq_zero]
              intro h0
              rw [h0] at hne
              exact absurd hne (by simp)
            simp only [processApproachesGo, hr, hb, hrs]
            by_cases hdup : acc.hasKey (r, b) = true
            · rw [if_pos hdup]
              constructor
              · intro h
                exact absurd h (by simp [Except.isOk, Except.toBool])
              · rintro ⟨_, hforall⟩
                have h0 := hforall (r, b) (by simp [hkey])
                rw [hdup] at h0
                exact absurd h0 (by simp)
            · rw [if_neg hdup, if_neg hrs0,
                ih (acc.setKey (r, b) rs) (fun p hp => hwf p (List.mem_cons_of_mem _ hp))]
              simp only [List.map_cons, hkey, List.nodup_cons, List.mem_cons]
              constructor
              · rintro ⟨hnd, hfa⟩
                refine ⟨⟨?_, hnd⟩, ?_⟩
                · intro hmem
                  have h0 := hfa (r, b) hmem
                  have h1 : (PairMap.hasKey (acc.setKey (r, b) rs) (r, b)) = true :=
                    (PairMap.hasKey_setKeyP acc (r, b) (r, b) rs).mpr (Or.inl rfl)
                  rw [h0] at h1
                  exact absurd h1 (by simp)
                · intro k hk
                  rcases hk with hk | hk
                  · rw [hk]
                    exact Bool.not_eq_true _ ▸ hdup
                  · have h0 := hfa k hk
                    rw [← Bool.not_eq_true] at h0 ⊢
                    intro h1
                    exact h0 ((PairMap.hasKey_setKeyP acc (r, b) k rs).mpr (Or.inr h1))
              · rintro ⟨⟨hnmem, hnd⟩, hfa⟩
                refine ⟨hnd, ?_⟩
                intro k hk
                rw [← Bool.not_eq_true]
                intro h1
                rcases (PairMap.hasKey_setKeyP acc (r, b) k rs).mp h1 with h2 | h2
                · exact hnmem (h2 ▸ hk)
                · have h0 := hfa k (Or.inr hk)
                  rw [h0] at h2
                  exact absurd h2 (by simp)

theorem processAppGo_keys (sections : List (String × AppSection)) :
    ∀ (acc m : PairMap (List (List String))),
      processApproachesGo acc sections = .ok m →
      m.map Prod.fst
        = acc.map Prod.fst ++ sections.map (fun p => AppSection.key p.2) := by
  induction sections with
  | nil =>
    intro acc m h
    simp only [processApproachesGo] at h
    cases h
    simp
  | cons hd tl ih =>
    intro acc m h
    obtain ⟨key, sec⟩ := hd
    rcases hr : sec.runway with _ | v
    · rw [show processApproachesGo acc ((key, sec) :: tl)
          = .error (key ++ ".runway is required and must be a string.") by
            simp only [processApproachesGo, hr]] at h
      cases h
    · cases v with
      | str r =>
        rcases hb : sec.beacon with _ | w
        · rw [show processApproachesGo acc ((key, sec) :: tl)
              = .error (key ++ ".beacon is required and must be a string.") by
                simp only [processApproachesGo, hr, hb]] at h
          cases h
        · cases w with
          | str b =>
            simp only [processApproachesGo, hr, hb] at h
            by_cases hdup : acc.hasKey (r, b) = true
            · rw [if_pos hdup] at h
              cases h
            · rw [if_neg hdup] at h
              rcases hcr : collectRoutes key 3 "must have at least three elements."
                  sec.routeEntries with e | rs
              · simp only [hcr] at h
                exact Except.noConfusion h
              · simp only [hcr] at h
                by_cases hz : rs.length = 0
                · rw [if_pos hz] at h
                  cases h
                · rw [if_neg hz] at h
                  have hkeys := ih (acc.setKey (r, b) rs) m h
                  rw [hkeys, PairMap.fst_setKeyP acc (r, b) rs (Bool.not_eq_true _ ▸ hdup)]
                  simp [AppSection.key, hr, hb]
          | num q =>
            rw [show processApproachesGo acc ((key, sec) :: tl)
                = .error (key ++ ".beacon is required and must be a string.") by
                  simp only [processApproachesGo, hr, hb]] at h
            cases h
          | bool b0 =>
            rw [show processApproachesGo acc ((key, sec) :: tl)
                = .error (key ++ ".beacon is required and must be a string.") by
                  simp only [processApproachesGo, hr, hb]] at h
            cases h
          | list l =>
            rw [show processApproachesGo acc ((key, sec) :: tl)
                = .error (key ++ ".beacon is required and must be a string.") by
                  simp only [processApproachesGo, hr, hb]] at h
            cases h
      | num q =>
        rw [show processApproachesGo acc ((key, sec) :: tl)
            = .error (key ++ ".runway is required and must be a string.") by
              simp only [processApproachesGo, hr]] at h
        cases h
      | bool b =>
        rw [show processApproachesGo acc ((key, sec) :: tl)
            = .error (key ++ ".runway is required and must be a string.") by
              simp only [processApproachesGo, hr]] at h
        cases h
      | list l =>
        rw [show processApproachesGo acc ((key, sec) :: tl)
            = .error (key ++ ".runway is required and must be a string.") by
              simp only [processApproachesGo, hr]] at h
        cases h

/-- C7: on sections that are otherwise well-formed, the departures loop
succeeds exactly when all departure sections carry distinct runway ids,
and the approaches loop succeeds exactly when all approach sections
carry distinct (runway, beacon) composite keys — so sections sharing
only the runway or only the beacon are accepted — and the composite map
of an accepted run lists the keys in declaration order. -/
theorem duplicate_departure_approach_keys :
    (∀ sections : List (String × DepSection),
      (∀ p ∈ sections, DepSection.wf p.2 = true) →
      (((processDepartures sections).isOk = true) ↔
        (sections.map fun p => DepSection.key p.2).Nodup))
    ∧ (∀ sections : List (String × AppSection),
      (∀ p ∈ sections, AppSection.wf p.2 = true) →
      (((processApproaches sections).isOk = true) ↔
        (sections.map fun p => AppSection.key p.2).Nodup))
    ∧ (∀ (sections : List (String × AppSection)) (m : PairMap (List (List String))),
      processApproaches sections = .ok m →
      m.map Prod.fst = sections.map fun p => AppSection.key p.2) := by
  refine ⟨?_, ?_, ?_⟩
  · intro sections hwf
    rw [processDepartures, processDepGo_ok_iff sections [] hwf]
    simp [JsMap.hasKey, JsMap.get?]
  · intro sections hwf
    rw [processApproaches, processAppGo_ok_iff sections [] hwf]
    simp [PairMap.hasKey, PairMap.get?]
  · intro sections m h
    have h0 := processAppGo_keys sections [] m h
    simpa using h0

/-- Witness for C7: two departures sharing runway `"26"` raise the
duplicate-departure error; three approaches sharing only the runway or
only the beacon are all accepted, with the composite keys in declaration
order. -/
theorem duplicate_departure_approach_keys_witness :
    (((processDepartures depsDup).isOk = true) ↔
      ((depsDup.map fun p => DepSection.key p.2).Nodup))
    ∧ processDepartures depsDup
        = .error "departure2 is duplicate departure with departure2.runway \"26\"."
    ∧ (((processApproaches appsShared).isOk = true) ↔
      ((appsShared.map fun p => AppSection.key p.2).Nodup))
    ∧ (processApproaches appsShared).isOk = true
    ∧ (∃ mm : PairMap (List (List String)), processApproaches appsShared = .ok mm
        ∧ mm.map Prod.fst = [("26", "ALPHA"), ("26", "BRAVO"), ("08", "ALPHA")]) :=
  ⟨duplicate_departure_approach_keys.1 depsDup (by decide),
   by decide,
   duplicate_departure_approach_keys.2.1 appsShared (by decide),
   by decide,
   ⟨_, rfl, by decide⟩⟩

/-- C2: `Registry.addRunway` contains no `runways.set` call, so a runway
is never stored: after a "successful" `addRunway(r)`, `getRunway(r.id)`
raises `NotRegisteredError` instead of returning `r`, and a second
`addRunway` of the same id succeeds instead of raising `CollisionError`.
This contradicts the method's own documentation ("Store a runway in the
registry") and the registry invariant of the spec. -/
theorem registry_addRunway_never_stores :
    Registry.empty.addRunway [rw01] = .ok Registry.empty
    ∧ (Registry.empty.addRunway [rw01]).bind (fun reg => reg.getRunway "01")
      = .error (.notRegisteredRunway "01")
    ∧ (Registry.empty.addRunway [rw01]).bind (fun reg => reg.addRunway [rw01])
      = .ok Registry.empty := by
  refine ⟨rfl, rfl, rfl⟩

/-- C8: registering a fix whose name is already registered is a no-op
when the coordinates are identical, and raises a collision error carrying
the existing location when the latitude or longitude differs; in both
cases the registry is unchanged. -/
theorem addFix_idempotent_or_collision (reg : Registry) (b existing : NamedFix)
    (hget : reg.fixes.get? b.name = some existing) :
    (existing.latitude = b.latitude ∧ existing.longitude = b.longitude →
      reg.addFix [b] = .ok reg)
    ∧ (existing.latitude ≠ b.latitude ∨ existing.longitude ≠ b.longitude →
      reg.addFix [b] = .error (.collisionFix b.name existing.latitude existing.longitude)) := by
  constructor
  · rintro ⟨h1, h2⟩
    simp [Registry.addFix, hget, h1, h2]
  · intro h
    simp only [Registry.addFix, hget]
    rw [if_pos h]

/-- Witness for C8: registering `"ABC"` at (10, 20) twice is a no-op;
registering `"ABC"` at (10, 21) afterwards raises the collision error. -/
theorem addFix_idempotent_or_collision_witness :
    regABC.fixes.get? "ABC" = some ⟨10, 20, "ABC"⟩
    ∧ regABC.addFix [⟨10, 20, "ABC"⟩] = .ok regABC
    ∧ regABC.addFix [⟨10, 21, "ABC"⟩] = .error (.collisionFix "ABC" 10 20) :=
  ⟨by decide,
   (addFix_idempotent_or_collision regABC ⟨10, 20, "ABC"⟩ ⟨10, 20, "ABC"⟩ (by decide)).1
     ⟨rfl, rfl⟩,
   (addFix_idempotent_or_collision regABC ⟨10, 21, "ABC"⟩ ⟨10, 20, "ABC"⟩ (by decide)).2
     (Or.inr (by decide))⟩

/-- C3: reversing twice does not round-trip.  `Runway.reverse` computes
the opposite runway number as `(number + 18) % 360` instead of wrapping
within 1–36, so the reverse of runway end "27" is named "45" (not "09")
and the double reverse is named "63" (not "27") — for any
destination-point function, since the name does not depend on the
geometry.  This contradicts `reverse`'s own documentation ("If already an
opposite end, returns the primary end") and the name format the parser
enforces. -/
theorem reverse_reverse_name_differs :
    ∀ dest : Fix → ℚ → ℚ → Fix,
      (r27.reverse dest).name = ⟨45, none⟩
      ∧ ((r27.reverse dest).reverse dest).name = ⟨63, none⟩
      ∧ r27.name = ⟨27, none⟩
      ∧ ((r27.reverse dest).reverse dest).name ≠ r27.name := by
  intro dest
  have h2 : ((r27.reverse dest).reverse dest).name = ⟨63, none⟩ := rfl
  refine ⟨rfl, h2, rfl, ?_⟩
  rw [h2]
  decide

/-- C10: every entry point accepted by `parseEntryPoint` has an
undefined altitude — the third field of the record is never carried into
the result, and a non-numeric altitude field never raises an error,
because the `Number.isNaN` check reads the never-assigned local
(`undefined`, for which `Number.isNaN` is false). -/
theorem parseEntryPoint_altitude_always_none :
    (∀ (data : String) (ep : EntryPoint),
      parseEntryPoint data = .ok ep → ep.altitude = none)
    ∧ (∃ ep : EntryPoint, parseEntryPoint "90, BCN, abc" = .ok ep
        ∧ ep.beacon = some "BCN") := by
  constructor
  · intro data ep h
    simp only [parseEntryPoint] at h
    split at h
    · exact absurd h (by simp)
    · split at h
      · exact absurd h (by simp)
      · split at h
        · rw [← (Except.ok.inj h)]
        · rw [← (Except.ok.inj h)]
  · exact ⟨_, rfl, rfl⟩

/-- Witness for C10: a record with a numeric altitude field `5000`
parses, and the resulting entry point still has no altitude. -/
theorem parseEntryPoint_altitude_witness :
    parseEntryPoint "90, BCN, 5000" = .ok ⟨90, none, some "BCN"⟩
    ∧ (⟨90, none, some "BCN"⟩ : EntryPoint).altitude = none :=
  ⟨by decide,
   parseEntryPoint_altitude_always_none.1 "90, BCN, 5000" ⟨90, none, some "BCN"⟩
     (by decide)⟩

/-- C9 counterexample: the `nosid` flag is positional, not a usage
keyword: a record whose usage field contains the token `nosid` parses
with `noSID = false`, while the flag is set only when the *fifth*
comma-field equals `"nosid"`. -/
theorem config_nosid_positional :
    (∃ e : ConfigEntry,
      parseConfigRecord destId reg27 "1, 27, landnosid" = .ok e
      ∧ e.options.land = true ∧ e.options.noSID = false)
    ∧ (∃ e : ConfigEntry,
      parseConfigRecord destId reg27 "1, 27, land, 0, nosid" = .ok e
      ∧ e.options.noSID = true) :=
  ⟨⟨_, rfl, rfl, rfl⟩, ⟨_, rfl, rfl⟩⟩

/-- C9 (amended): the five usage keywords `land`, `start`, `rev`, `int`,
`track` are detected by substring presence within the usage field, in
any order, and `rev` makes the reverse end of the referenced runway be
used; the `noSID` flag however is positional — set exactly when the
fifth comma-field equals `"nosid"`, irrespective of the usage field. -/
theorem config_usage_tokens_unordered :
    (∃ e : ConfigEntry,
      parseConfigRecord destId reg27 "1, 27, revlandstarttrackint, 0, nosid" = .ok e
      ∧ e.options = ⟨true, true, true, true, some 0, true⟩
      ∧ e.runway = r27.reverse destId)
    ∧ (∃ e : ConfigEntry,
      parseConfigRecord destId reg27 "1, 27, inttrackstartlandrev, 0, nosid" = .ok e
      ∧ e.options = ⟨true, true, true, true, some 0, true⟩
      ∧ e.runway = r27.reverse destId)
    ∧ (∃ e : ConfigEntry,
      parseConfigRecord destId reg27 "1, 27, land" = .ok e
      ∧ e.options = ⟨true, false, false, false, none, false⟩
      ∧ e.runway = r27) :=
  ⟨⟨_, rfl, rfl, rfl⟩, ⟨_, rfl, rfl, rfl⟩, ⟨_, rfl, rfl, rfl⟩⟩

/-- C5 counterexample: `parseDms "91"` (and hence the pair
`("91", "0")`) raises the *syntax* failure, not a range failure: the
pattern requires three digit groups and `"91"` supplies only two, so the
degree range check is never reached. -/
theorem parseDms_91_syntax_not_range :
    parseDms "91" = .error (.syntaxErr "91")
    ∧ fromDms "91" "0" = .error (.syntaxErr "91")
    ∧ ∀ (c : DmsComponent) (v : ℚ) (s : String),
        DmsError.syntaxErr "91" ≠ DmsError.rangeErr c v s := by
  refine ⟨by decide, by decide, ?_⟩
  intro c v s h
  exact DmsError.noConfusion h

/-- C5 (amended): the pair `("512930N", "0011311W")` parses to
approximately (51.4917, −1.2197); malformed structure raises the syntax
failure and an out-of-range component the distinct range failure — but
the input `"91"` is *malformed* (two digits cannot fill three groups)
and raises the syntax failure, while a degrees range failure needs a
three-group input such as `"1810000"` (181° 0′ 0″); `"1790000"` is in
range. -/
theorem parseDms_values_and_failures :
    (∃ lat lon : ℚ, fromDms "512930N" "0011311W" = .ok ⟨lat, lon⟩
      ∧ |lat - 51.4917| < 1/1000 ∧ |lon - (-1.2197)| < 1/1000)
    ∧ parseDms "1810000" = .error (.rangeErr .degrees 181 "1810000")
    ∧ (∃ q : ℚ, parseDms "1790000" = .ok q)
    ∧ parseDms "91" = .error (.syntaxErr "91") :=
  ⟨⟨((1 : Int) : ℚ) * ((51 : ℚ) + 29/60 + 30/3600),
    ((-1 : Int) : ℚ) * ((1 : ℚ) + 13/60 + 11/3600),
    rfl, by norm_num [abs_lt], by norm_num [abs_lt]⟩,
   by decide, ⟨_, rfl⟩, by decide⟩

/-- C6 counterexample: with the decimal-degrees flag off, a coordinate
pair in decimal-degree form whose components carry cardinal-letter
prefixes is *accepted* and parsed as decimal degrees, not rejected: the
error fires only when a component is in bare (unprefixed) form. -/
theorem decimal_with_prefix_accepted_flag_off :
    ∃ f : Fix, parseCoordinates false (some "N51.5") (some "W1.25") = .ok f
      ∧ f.latitude = 51.5 ∧ f.longitude = -1.25 :=
  ⟨⟨mkRat 515 10 * 1, mkRat 125 100 * (-1)⟩, rfl,
   by norm_num [Rat.mkRat_eq_div], by norm_num [Rat.mkRat_eq_div]⟩

/-- C6 (amended): with the decimal-degrees flag off, a pair in which
both components match the (optionally sign- or cardinal-prefixed)
decimal form raises the numeric-coordinates error whenever at least one
component is in bare unprefixed form; a pair in which both components
carry a prefix is parsed as decimal degrees even with the flag off. -/
theorem parseCoordinates_decimal_mode :
    (∀ lat lon : String,
      matchesSignedDecimal ['N', 'S'] lat = true →
      matchesSignedDecimal ['E', 'W'] lon = true →
      (matchesBareDecimal lat = true ∨ matchesBareDecimal lon = true) →
      parseCoordinates false (some lat) (some lon)
        = .error (.parse "Only latitude and longitude coordinates are supported by this parser. Numeric coordinates encountered and airspace.decimaldegrees is not true."))
    ∧ (∃ f : Fix, parseCoordinates false (some "N51.5") (some "W1.25") = .ok f
        ∧ f.latitude = 51.5 ∧ f.longitude = -1.25) := by
  constructor
  · intro lat lon h1 h2 h3
    have hlat : ¬lat = "" := by
      intro he
      rw [he] at h1
      exact absurd h1 (by decide)
    have hlon : ¬lon = "" := by
      intro he
      rw [he] at h2
      exact absurd h2 (by decide)
    simp only [parseCoordinates]
    rw [if_neg hlat, if_neg hlon, if_pos ⟨h1, h2⟩, if_pos ⟨by simp, h3⟩]
  · exact ⟨⟨mkRat 515 10 * 1, mkRat 125 100 * (-1)⟩, rfl,
      by norm_num [Rat.mkRat_eq_div], by norm_num [Rat.mkRat_eq_div]⟩

/-- Witness for C6 (amended): the bare pair `("51.5", "1.25")` with the
flag off raises the numeric-coordinates error. -/
theorem parseCoordinates_decimal_mode_witness :
    matchesSignedDecimal ['N', 'S'] "51.5" = true
    ∧ matchesSignedDecimal ['E', 'W'] "1.25" = true
    ∧ matchesBareDecimal "51.5" = true
    ∧ parseCoordinates false (some "51.5") (some "1.25")
        = .error (.parse "Only latitude and longitude coordinates are supported by this parser. Numeric coordinates encountered and airspace.decimaldegrees is not true.") :=
  ⟨by decide, by decide, by decide,
   parseCoordinates_decimal_mode.1 "51.5" "1.25" (by decide) (by decide)
     (Or.inl (by decide))⟩

/-- C1: the wake-row-count check of `formatIni` is inverted: an otherwise
valid `[airspace]` section whose `wake` key has six rows is rejected with
"airspace.wake must have exactly 6 elements.", while the same section
with five rows passes validation; `parseWakeSeparation` on the six rows
would build a complete matrix indexable by every category pair.  The
claim (and the spec's stated intent) is that 5 rows are rejected and 6
accepted. -/
theorem wake_six_rows_rejected_five_accepted :
    formatIniAirspace (some airspaceDataWake6)
      = .error "airspace.wake must have exactly 6 elements."
    ∧ (∃ f : FormatAirspace,
        formatIniAirspace (some airspaceDataWake5) = .ok f ∧ f.wake = some wakeRows5)
    ∧ (∃ w : WakeSeparation, parseWakeSeparation (some wakeRows6) = .ok (some w)
        ∧ ∀ lead follow : WakeCategory, (w.lookup lead follow).isSome = true) :=
  ⟨rfl, ⟨_, rfl, rfl⟩,
   ⟨recatMatrix, by decide, by intro lead follow; cases lead <;> cases follow <;> rfl⟩⟩

/-- C4 counterexample: a document whose `[airspace]` section lacks the
`ceiling` key does not validate with a derived default — `formatIni`
rejects it as a missing required key. -/
theorem ceiling_missing_rejected :
    formatIniAirspace (some airspaceDataNoCeiling)
      = .error "airspace.ceiling is required and must be a number." := rfl

/-- C4 (amended): the layered defaults live in the `Airspace`
constructor, not the format validator: an omitted `ceilingAltitude`
option defaults to `descentAltitude + 1000` and an omitted
`departureAltitude` option to the (possibly defaulted)
`ceilingAltitude + 2000`, while the format validator requires the
`ceiling` key and rejects a document lacking it. -/
theorem airspace_constructor_layered_defaults :
    (∀ descent : ℚ,
      Airspace.ceilingAltitude ⟨descent, none, none⟩ = descent + 1000
      ∧ Airspace.departureAltitude ⟨descent, none, none⟩ = descent + 1000 + 2000)
    ∧ (∀ descent ceil : ℚ,
      Airspace.departureAltitude ⟨descent, some ceil, none⟩ = ceil + 2000)
    ∧ formatIniAirspace (some airspaceDataNoCeiling)
      = .error "airspace.ceiling is required and must be a number." :=
  ⟨fun _ => ⟨rfl, rfl⟩, fun _ _ => rfl, rfl⟩

end Eatc
